import Mathlib

/-!
Shallow embedding of the rusty-risc RV32 emulator core: machine-word
helpers, the CSR file, the trap machinery, the bus with its RAM, UART and
CLINT devices, the instruction decoder and the ALU, together with theorems
settling the specification claims.

Machine integers are modelled as Nat (unsigned words) and Int (signed
words) with explicit reduction modulo 2^32 or 2^64 where the source relies
on fixed-width arithmetic.  Arithmetic overflow of the built-in Rust
operators is modelled with the wrapping semantics of optimized builds
(debug builds panic instead); unconditional panics such as unwrap on None
are modelled by returning none.
-/

/-- 2^32, the modulus of 32-bit machine words. -/
def U32MOD : Nat := 4294967296

/-- 2^64, the modulus of 64-bit machine words (usize). -/
def U64MOD : Nat := 18446744073709551616

/-- Cast of a signed value to u32 (Rust: as u32). -/
def toU32 (x : Int) : Nat := (x % (U32MOD : Int)).toNat

/-- Interpretation of a 32-bit word as i32 (Rust: as i32). -/
def toI32 (n : Nat) : Int :=
  if n % U32MOD < 2147483648 then ((n % U32MOD : Nat) : Int)
  else ((n % U32MOD : Nat) : Int) - (U32MOD : Int)

/-- Reduction of an integer to the i32 value with the same low 32 bits. -/
def wrap32 (x : Int) : Int := toI32 (toU32 x)

/-- Bitwise and of two i32 values. -/
def i32And (x y : Int) : Int := toI32 (toU32 x &&& toU32 y)

/-- Bitwise or of two i32 values. -/
def i32Or (x y : Int) : Int := toI32 (toU32 x ||| toU32 y)

/-- Bitwise xor of two i32 values. -/
def i32Xor (x y : Int) : Int := toI32 (toU32 x ^^^ toU32 y)

/-- Bitwise not of an i32 value (Rust: !x). -/
def i32Not (x : Int) : Int := toI32 (toU32 x ^^^ 4294967295)

/-- Left shift of an i32 by a constant number of bits, wrapping. -/
def i32ShlC (x : Int) (s : Nat) : Int := wrap32 (x * (2 ^ s : Nat))

/-- Arithmetic right shift of an i32 by a constant number of bits. -/
def i32ShrC (x : Int) (s : Nat) : Int := Int.fdiv (wrap32 x) ((2 ^ s : Nat) : Int)

/-- Rust shl on i32 with an i32 shift amount: the amount is reduced
modulo 32 in optimized builds (debug builds panic outside 0..31). -/
def rustShl (x sh : Int) : Int := toI32 (toU32 x <<< (toU32 sh % 32))

/-- Rust shr on u32 bits with an i32 shift amount, result reinterpreted as
i32; the amount is reduced modulo 32 in optimized builds. -/
def rustShrLogical (x sh : Int) : Int := toI32 (toU32 x >>> (toU32 sh % 32))

/-- Rust shr on i32 (arithmetic) with an i32 shift amount; the amount is
reduced modulo 32 in optimized builds. -/
def rustShrArith (x sh : Int) : Int :=
  Int.fdiv (wrap32 x) ((2 ^ (toU32 sh % 32) : Nat) : Int)

/-- Architectural exceptions and the timer pseudo-exception (trap.rs). -/
inductive RVException where
  | InstructionAddressMisaligned (addr : Nat)
  | InstructionAccessFault (addr : Nat)
  | IllegalInstruction (instruction : Nat)
  | BreakPoint
  | LoadAddressMisaligned (addr : Nat)
  | LoadAccessFault (addr : Nat)
  | StoreAddressMisaligned (addr : Nat)
  | StoreAccessFault (addr : Nat)
  | EnvironmentCallU
  | EnvironmentCallM
  | TimerInterrupt
deriving DecidableEq, Repr

namespace RVException

/-- Exception code written to mcause (trap.rs, RVException::to_ecode). -/
def to_ecode : RVException → Nat
  | .InstructionAddressMisaligned _ => 0
  | .InstructionAccessFault _ => 1
  | .IllegalInstruction _ => 2
  | .BreakPoint => 3
  | .LoadAddressMisaligned _ => 4
  | .LoadAccessFault _ => 5
  | .StoreAddressMisaligned _ => 6
  | .StoreAccessFault _ => 7
  | .EnvironmentCallU => 8
  | .EnvironmentCallM => 11
  | .TimerInterrupt => 0x80000007

end RVException

/-- Execution privilege modes (cpu.rs, ExecMode). -/
inductive ExecMode where
  | MACHINE
  | USER
deriving DecidableEq, Repr

namespace ExecMode

/-- Numeric encoding of the mode (MACHINE = 0b11, USER = 0b00). -/
def toNat : ExecMode → Nat
  | .MACHINE => 3
  | .USER => 0

/-- Decoding of a mode from a u32 (derived FromPrimitive). -/
def fromU32 (n : Nat) : Option ExecMode :=
  if n = 3 then some .MACHINE
  else if n = 0 then some .USER
  else none

end ExecMode

/-- The architectural CSR file: the fixed map of cpu/csr.rs represented as
one field per architectural CSR, each holding a u32 value.  Writability is
encoded in CSRFile.write. -/
structure CSRFile where
  mvendorid : Nat
  marchid : Nat
  mimpid : Nat
  mhartid : Nat
  rdcycle : Nat
  mstatus : Nat
  misa : Nat
  mie : Nat
  mtvec : Nat
  mscratch : Nat
  mepc : Nat
  mcause : Nat
  mtval : Nat
  mip : Nat
deriving DecidableEq, Repr

namespace CSRFile

/-- Initial CSR values (CSRFile::new). -/
def new : CSRFile :=
  { mvendorid := 0xff0ff0ff, marchid := 0, mimpid := 0, mhartid := 0,
    rdcycle := 0, mstatus := 0, misa := 0x40401101, mie := 0, mtvec := 0,
    mscratch := 0, mepc := 0, mcause := 0, mtval := 0, mip := 0 }

/-- CSR write: known writable CSRs take the value, read-only CSRs drop the
write, unknown addresses drop the write (CSRFile::write). -/
def write (c : CSRFile) (addr value : Int) : CSRFile :=
  if addr = 0x300 then { c with mstatus := toU32 value }
  else if addr = 0x301 then { c with misa := toU32 value }
  else if addr = 0x304 then { c with mie := toU32 value }
  else if addr = 0x305 then { c with mtvec := toU32 value }
  else if addr = 0x340 then { c with mscratch := toU32 value }
  else if addr = 0x341 then { c with mepc := toU32 value }
  else if addr = 0x342 then { c with mcause := toU32 value }
  else if addr = 0x343 then { c with mtval := toU32 value }
  else if addr = 0x344 then { c with mip := toU32 value }
  else c

/-- CSR read: known CSRs return their value as i32, unknown addresses read
zero (CSRFile::read). -/
def read (c : CSRFile) (addr : Int) : Int :=
  if addr = 0xf11 then toI32 c.mvendorid
  else if addr = 0xf12 then toI32 c.marchid
  else if addr = 0xf13 then toI32 c.mimpid
  else if addr = 0xf14 then toI32 c.mhartid
  else if addr = 0xc00 then toI32 c.rdcycle
  else if addr = 0x300 then toI32 c.mstatus
  else if addr = 0x301 then toI32 c.misa
  else if addr = 0x304 then toI32 c.mie
  else if addr = 0x305 then toI32 c.mtvec
  else if addr = 0x340 then toI32 c.mscratch
  else if addr = 0x341 then toI32 c.mepc
  else if addr = 0x342 then toI32 c.mcause
  else if addr = 0x343 then toI32 c.mtval
  else if addr = 0x344 then toI32 c.mip
  else 0

/-- Trap-entry interrupt disable (CSRFile::disable_irq).  The else branch
is the literal source statement mstatus.value &= MSTATUS_MPIE, which masks the whole
register with bit 7 instead of clearing bit 7. -/
def disable_irq (c : CSRFile) : CSRFile :=
  let m := c.mstatus
  let m := if m &&& 8 ≠ 0 then m ||| 128 else m &&& 128
  let m := m &&& 0xfffffff7
  { c with mstatus := m }

/-- MPP field of mstatus (CSRFile::get_mpp). -/
def get_mpp (c : CSRFile) : Nat := (c.mstatus &&& 0x1800) >>> 11

/-- Replacement of the MPP field of mstatus (CSRFile::set_mpp). -/
def set_mpp (c : CSRFile) (mpp : Nat) : CSRFile :=
  { c with mstatus := (c.mstatus &&& 0xffffe7ff) ||| ((mpp &&& 3) <<< 11) }

/-- Trap-exit interrupt enable (CSRFile::enable_irq): restore MIE from
MPIE, then set MPIE. -/
def enable_irq (c : CSRFile) : CSRFile :=
  let m := c.mstatus
  let m := if m &&& 128 ≠ 0 then m ||| 8 else m &&& 0xfffffff7
  let m := m ||| 128
  { c with mstatus := m }

/-- Timer-interrupt test (CSRFile::mtimer_interrupt): pending, enabled and
globally enabled. -/
def mtimer_interrupt (c : CSRFile) : Except RVException Unit :=
  if c.mip &&& 128 ≠ 0 ∧ c.mie &&& 128 ≠ 0 ∧ c.mstatus &&& 8 ≠ 0 then
    .error .TimerInterrupt
  else .ok ()

/-- Set or clear the MTIP bit of mip (CSRFile::set_mtip). -/
def set_mtip (c : CSRFile) (value : Bool) : CSRFile :=
  if value then { c with mip := c.mip ||| 128 }
  else { c with mip := c.mip &&& (U32MOD - 1 - 128) }

end CSRFile

/-- The register file (regfile.rs): 31 physical registers holding i32
values, modelled as a function from physical index to value. -/
structure RegFile where
  regs : Nat → Int

namespace RegFile

/-- All registers zero (RegFile::new). -/
def new : RegFile := ⟨fun _ => 0⟩

/-- Register read: x0 reads zero, others read the physical register
(RegFile::read). -/
def read (rf : RegFile) (num : Nat) : Int :=
  if num = 0 then 0 else rf.regs (num - 1)

/-- Register write: writes to x0 are dropped (RegFile::write). -/
def write (rf : RegFile) (num : Nat) (value : Int) : RegFile :=
  if num > 0 then ⟨fun i => if i = num - 1 then value else rf.regs i⟩ else rf

end RegFile

/-- Bus-level errors (bus.rs, BusError). -/
inductive BusError where
  | AddressMisaligned (addr : Nat)
  | AddressUnmapped (addr : Nat)
deriving DecidableEq, Repr

/-- Little-endian byte image of the low W bytes of a value
(BusWidth::to_mem via to_le_bytes). -/
def toLeBytes : Nat → Nat → List Nat
  | 0, _ => []
  | w + 1, val => (val % 256) :: toLeBytes w (val / 256)

/-- Value of a little-endian byte list (from_le_bytes). -/
def fromLeBytes : List Nat → Nat
  | [] => 0
  | b :: rest => (b % 256) + 256 * fromLeBytes rest

/-- BusWidth::from_mem for width W: a slice of exactly W bytes is decoded
little-endian; any other length falls back to zero (the source uses
try_from(...).unwrap_or([0; W])). -/
def fromMem (w : Nat) (bytes : List Nat) : Nat :=
  if bytes.length = w then fromLeBytes bytes else 0

/-- Read W consecutive bytes of a byte store starting at idx. -/
def readBytes (f : Nat → Nat) (idx : Nat) : Nat → List Nat
  | 0 => []
  | w + 1 => f idx :: readBytes f (idx + 1) w

/-- Write a list of bytes into a byte store starting at idx. -/
def writeBytesFun (f : Nat → Nat) (idx : Nat) : List Nat → (Nat → Nat)
  | [] => f
  | b :: rest => writeBytesFun (fun j => if j = idx then b else f j) (idx + 1) rest

/-- The RAM device (bus/ram.rs): a byte store with a base address and a
size.  The Vec of bytes is modelled as the function bytes on offsets below
size. -/
structure Ram where
  addrStart : Nat
  size : Nat
  bytes : Nat → Nat

namespace Ram

/-- RAM address range (Ram::addr_space): base to base plus length. -/
def addr_space (r : Ram) : Nat × Nat := (r.addrStart, r.addrStart + r.size)

/-- RAM load of W bytes (Ram::load); an access beyond the byte store is a
programmer error (a slice panic in the source), ruled out by the bus range
check for in-range aligned accesses. -/
def load (w : Nat) (r : Ram) (addr : Nat) : Nat :=
  fromMem w (readBytes r.bytes (addr - r.addrStart) w)

/-- RAM store of the W low bytes of data (Ram::store). -/
def store (w : Nat) (r : Ram) (addr : Nat) (data : Nat) : Ram :=
  { r with bytes := writeBytesFun r.bytes (addr - r.addrStart) (toLeBytes w data) }

end Ram

/-- The UART device (bus/uart.rs).  buffer is the pending characters; the
ghost field emitted records, per flush, the byte list handed to the
logging call (the source prints it with warn! when a newline arrives). -/
structure Uart where
  buffer : List Nat
  emitted : List (List Nat)
deriving DecidableEq, Repr

/-- UART base address (bus/uart.rs, BASE_ADDR). -/
def UART_BASE : Nat := 0x10000000

namespace Uart

/-- UART address range (Uart::addr_space): base to base + 0xff. -/
def addr_space : Nat × Nat := (UART_BASE, UART_BASE + 0xff)

/-- UART load (Uart::load): the status register at base + 5 reads the
single byte 0x40, everything else reads zero; from_mem of a one-byte
slice yields zero for widths above one. -/
def load (w : Nat) (addr : Nat) : Nat :=
  if addr = UART_BASE + 0x5 then fromMem w [0x40] else fromMem w [0x00]

/-- UART store (Uart::store): a width-1 write to the data register at the
base buffers the byte; a newline flushes the buffer to the log and clears
it; every other store is ignored. -/
def store (w : Nat) (u : Uart) (addr : Nat) (data : Nat) : Uart :=
  if addr = UART_BASE ∧ w = 1 then
    if data % 256 = 10 then
      { buffer := [], emitted := u.emitted ++ [u.buffer] }
    else
      { u with buffer := u.buffer ++ [data % 256] }
  else u

end Uart

/-- The CLINT device registers (bus/clint.rs): 64-bit mtime and mtimecmp.
The wall-clock start_time driving tick is not modelled; the claims touch
only the register file. -/
structure Clint where
  mtimecmp : Nat
  mtime : Nat
deriving DecidableEq, Repr

/-- CLINT base address (bus/clint.rs, BASE_ADDR). -/
def CLINT_BASE : Nat := 0x11000000

/-- CLINT size (bus/clint.rs, SIZE). -/
def CLINT_SIZE : Nat := 0xBFFF

namespace Clint

/-- CLINT address range (Clint::addr_space). -/
def addr_space : Nat × Nat := (CLINT_BASE, CLINT_BASE + CLINT_SIZE)

/-- CLINT load (Clint::load): decodes the offset from the base into the
halves of mtimecmp and mtime; unknown offsets read from a one-byte zero
slice.  Addresses below the base underflow the offset subtraction in the
source; callers stay at or above the base. -/
def load (w : Nat) (c : Clint) (addr : Nat) : Except BusError Nat :=
  let offset := addr - CLINT_BASE
  if offset % w ≠ 0 then .error (.AddressMisaligned addr)
  else if offset = 0x4004 then
    .ok (fromMem w ((toLeBytes 8 (c.mtimecmp % U64MOD)).drop 4))
  else if offset = 0x4000 then
    .ok (fromMem w ((toLeBytes 8 (c.mtimecmp % U64MOD)).take 4))
  else if offset = 0xBFFC then
    .ok (fromMem w ((toLeBytes 8 (c.mtime % U64MOD)).drop 4))
  else if offset = 0xBFF8 then
    .ok (fromMem w ((toLeBytes 8 (c.mtime % U64MOD)).take 4))
  else .ok (fromMem w [0])

/-- CLINT store (Clint::store): the halves of mtimecmp are replaced by the
stored bytes zero-extended to a word; every other offset is ignored. -/
def store (w : Nat) (c : Clint) (addr : Nat) (data : Nat) : Except BusError Clint :=
  let offset := addr - CLINT_BASE
  if offset % w ≠ 0 then .error (.AddressMisaligned addr)
  else if offset = 0x4004 then
    let newHigh := fromLeBytes ((toLeBytes w data ++ List.replicate (4 - w) 0).take 4)
    .ok { c with mtimecmp := (newHigh <<< 32) ||| (c.mtimecmp % U64MOD &&& 0xFFFFFFFF) }
  else if offset = 0x4000 then
    let newLow := fromLeBytes ((toLeBytes w data ++ List.replicate (4 - w) 0).take 4)
    .ok { c with mtimecmp := newLow ||| (c.mtimecmp % U64MOD &&& 0xFFFFFFFF00000000) }
  else .ok c

end Clint

/-- The bus (bus.rs): RAM plus UART; load and store check alignment first
and then dispatch by address range. -/
structure Bus where
  ram : Ram
  uart : Uart

namespace Bus

/-- Bus load (Bus::load, bus.rs lines 90-106): alignment check, then RAM,
then UART, otherwise AddressUnmapped. -/
def load (w : Nat) (b : Bus) (addr : Nat) : Except BusError Nat :=
  if addr % w ≠ 0 then .error (.AddressMisaligned addr)
  else if b.ram.addrStart ≤ addr ∧ addr < b.ram.addrStart + b.ram.size then
    .ok (Ram.load w b.ram addr)
  else if UART_BASE ≤ addr ∧ addr < UART_BASE + 0xff then
    .ok (Uart.load w addr)
  else .error (.AddressUnmapped addr)

/-- Bus store (Bus::store, bus.rs lines 108-128): alignment check, then
RAM, then UART, otherwise AddressUnmapped.  The second component is the
bus after the call, unchanged on every error path. -/
def store (w : Nat) (b : Bus) (addr : Nat) (data : Nat) :
    Except BusError Unit × Bus :=
  if addr % w ≠ 0 then (.error (.AddressMisaligned addr), b)
  else if b.ram.addrStart ≤ addr ∧ addr < b.ram.addrStart + b.ram.size then
    (.ok (), { b with ram := Ram.store w b.ram addr data })
  else if UART_BASE ≤ addr ∧ addr < UART_BASE + 0xff then
    (.ok (), { b with uart := Uart.store w b.uart addr data })
  else (.error (.AddressUnmapped addr), b)

end Bus

/-- Major opcodes (instructions.rs, Opcode). -/
inductive Opcode where
  | ARITH_REG
  | ARITH_IMM
  | LOAD
  | STORE
  | BRANCH
  | JAL
  | JALR
  | LUI
  | AUIPC
  | FENCE
  | SYSTEM
  | ATOMIC
deriving DecidableEq, Repr

namespace Opcode

/-- Decoding of the 7-bit major opcode (derived FromPrimitive). -/
def fromU32 (n : Nat) : Option Opcode :=
  if n = 0x33 then some .ARITH_REG
  else if n = 0x13 then some .ARITH_IMM
  else if n = 0x03 then some .LOAD
  else if n = 0x23 then some .STORE
  else if n = 0x63 then some .BRANCH
  else if n = 0x6f then some .JAL
  else if n = 0x67 then some .JALR
  else if n = 0x37 then some .LUI
  else if n = 0x17 then some .AUIPC
  else if n = 0x0f then some .FENCE
  else if n = 0x73 then some .SYSTEM
  else if n = 0x2f then some .ATOMIC
  else none

end Opcode

/-- R-type operations (instructions.rs, RInstruction). -/
inductive RInstruction where
  | add | sub | xor | or | and
  | sll | srl | sra | slt | sltu
  | mul | mulh | mulhsu | mulhu | div | divu | rem | remu
  | lrw | scw | amoSwapW | amoAddW | amoXorW | amoAndW | amoOrW
  | amoMinW | amoMaxW | amoMinUW | amoMaxUW
deriving DecidableEq, Repr

namespace RInstruction

/-- R-type secondary decode (RInstruction::new). -/
def new (opcode : Opcode) (funct3 funct7 : Nat) : Option RInstruction :=
  if opcode = .ATOMIC ∧ funct3 = 2 then
    let funct := funct7 >>> 2
    if funct = 0x02 then some .lrw
    else if funct = 0x03 then some .scw
    else if funct = 0x01 then some .amoSwapW
    else if funct = 0x00 then some .amoAddW
    else if funct = 0x04 then some .amoXorW
    else if funct = 0x0c then some .amoAndW
    else if funct = 0x08 then some .amoOrW
    else if funct = 0x10 then some .amoMinW
    else if funct = 0x14 then some .amoMaxW
    else if funct = 0x18 then some .amoMinUW
    else if funct = 0x1c then some .amoMaxUW
    else none
  else
    if funct3 = 0x0 ∧ funct7 = 0x0 then some .add
    else if funct3 = 0x0 ∧ funct7 = 0x20 then some .sub
    else if funct3 = 0x4 ∧ funct7 = 0x0 then some .xor
    else if funct3 = 0x6 ∧ funct7 = 0x0 then some .or
    else if funct3 = 0x7 ∧ funct7 = 0x0 then some .and
    else if funct3 = 0x1 ∧ funct7 = 0x0 then some .sll
    else if funct3 = 0x5 ∧ funct7 = 0x0 then some .srl
    else if funct3 = 0x5 ∧ funct7 = 0x20 then some .sra
    else if funct3 = 0x2 ∧ funct7 = 0x0 then some .slt
    else if funct3 = 0x3 ∧ funct7 = 0x0 then some .sltu
    else if funct3 = 0x0 ∧ funct7 = 1 then some .mul
    else if funct3 = 0x1 ∧ funct7 = 1 then some .mulh
    else if funct3 = 0x2 ∧ funct7 = 1 then some .mulhsu
    else if funct3 = 0x3 ∧ funct7 = 1 then some .mulhu
    else if funct3 = 0x4 ∧ funct7 = 1 then some .div
    else if funct3 = 0x5 ∧ funct7 = 1 then some .divu
    else if funct3 = 0x6 ∧ funct7 = 1 then some .rem
    else if funct3 = 0x7 ∧ funct7 = 1 then some .remu
    else none

end RInstruction

/-- I-type operations (instructions.rs, IInstruction).  The ALU of alu.rs
additionally matches on mret, sret and wfi; the decoder tables of
instructions.rs never produce those three variants. -/
inductive IInstruction where
  | addi | xori | ori | andi
  | slli | srli | srai | slti | sltiu
  | lb | lh | lw | lbu | lhu
  | jalr
  | ecall | ebreak | fence | fencei
  | csrrw | csrrs | csrrc | csrrwi | csrrsi | csrrci
  | mret | sret | wfi
deriving DecidableEq, Repr

namespace IInstruction

/-- I-type secondary decode (IInstruction::new, instructions.rs lines
145-190): SYSTEM with funct3 = 0 discriminates on the immediate, with
cases only for 0 (ecall) and 1 (ebreak). -/
def new (opcode : Opcode) (funct3 : Nat) (imm : Int) : Option IInstruction :=
  if opcode = .SYSTEM ∧ funct3 = 0 ∧ imm = 0 then some .ecall
  else if opcode = .SYSTEM ∧ funct3 = 0 ∧ imm = 1 then some .ebreak
  else
    let upper_imm := toU32 imm >>> 5
    if opcode = .ARITH_IMM ∧ funct3 = 0x1 ∧ upper_imm = 0x00 then some .slli
    else if opcode = .ARITH_IMM ∧ funct3 = 0x5 ∧ upper_imm = 0x00 then some .srli
    else if opcode = .ARITH_IMM ∧ funct3 = 0x5 ∧ upper_imm = 0x20 then some .srai
    else if opcode = .ARITH_IMM ∧ funct3 = 0x0 then some .addi
    else if opcode = .ARITH_IMM ∧ funct3 = 0x4 then some .xori
    else if opcode = .ARITH_IMM ∧ funct3 = 0x6 then some .ori
    else if opcode = .ARITH_IMM ∧ funct3 = 0x7 then some .andi
    else if opcode = .ARITH_IMM ∧ funct3 = 0x2 then some .slti
    else if opcode = .ARITH_IMM ∧ funct3 = 0x3 then some .sltiu
    else if opcode = .LOAD ∧ funct3 = 0x0 then some .lb
    else if opcode = .LOAD ∧ funct3 = 0x1 then some .lh
    else if opcode = .LOAD ∧ funct3 = 0x2 then some .lw
    else if opcode = .LOAD ∧ funct3 = 0x4 then some .lbu
    else if opcode = .LOAD ∧ funct3 = 0x5 then some .lhu
    else if opcode = .JALR ∧ funct3 = 0x0 then some .jalr
    else if opcode = .FENCE ∧ funct3 = 0x0 then some .fence
    else if opcode = .FENCE ∧ funct3 = 0x1 then some .fencei
    else if opcode = .SYSTEM ∧ funct3 = 0x1 then some .csrrw
    else if opcode = .SYSTEM ∧ funct3 = 0x2 then some .csrrs
    else if opcode = .SYSTEM ∧ funct3 = 0x3 then some .csrrc
    else if opcode = .SYSTEM ∧ funct3 = 0x5 then some .csrrwi
    else if opcode = .SYSTEM ∧ funct3 = 0x6 then some .csrrsi
    else if opcode = .SYSTEM ∧ funct3 = 0x7 then some .csrrci
    else none

end IInstruction

/-- U/J-type operations (instructions.rs, UJInstruction). -/
inductive UJInstruction where
  | jal
  | lui
  | auipc
deriving DecidableEq, Repr

namespace UJInstruction

/-- U/J-type decode (UJInstruction::new); any other opcode hits unreachable! in
the source and cannot arise from decode. -/
def new (opcode : Opcode) : UJInstruction :=
  match opcode with
  | .JAL => .jal
  | .LUI => .lui
  | .AUIPC => .auipc
  | _ => .jal

end UJInstruction

/-- S/B-type operations (instructions.rs, SBInstruction). -/
inductive SBInstruction where
  | sb | sh | sw
  | beq | bne | blt | bge | bltu | bgeu
deriving DecidableEq, Repr

namespace SBInstruction

/-- S/B-type secondary decode (SBInstruction::new). -/
def new (opcode : Opcode) (funct3 : Nat) : Option SBInstruction :=
  if opcode = .STORE ∧ funct3 = 0x0 then some .sb
  else if opcode = .STORE ∧ funct3 = 0x1 then some .sh
  else if opcode = .STORE ∧ funct3 = 0x2 then some .sw
  else if opcode = .BRANCH ∧ funct3 = 0x0 then some .beq
  else if opcode = .BRANCH ∧ funct3 = 0x1 then some .bne
  else if opcode = .BRANCH ∧ funct3 = 0x4 then some .blt
  else if opcode = .BRANCH ∧ funct3 = 0x5 then some .bge
  else if opcode = .BRANCH ∧ funct3 = 0x6 then some .bltu
  else if opcode = .BRANCH ∧ funct3 = 0x7 then some .bgeu
  else none

end SBInstruction

/-- Decoded instructions (instructions.rs, Instruction). -/
inductive Instruction where
  | RType (rd rs1 rs2 : Nat) (inst : RInstruction)
  | IType (imm : Int) (rd rs1 : Nat) (inst : IInstruction)
  | SBType (imm : Int) (rs1 rs2 : Nat) (inst : SBInstruction)
  | UJType (imm : Int) (rd : Nat) (inst : UJInstruction)
deriving DecidableEq, Repr

/-- I-immediate: bits 31:20 sign-extended (decoder.rs, imm_i). -/
def imm_i (raw : Nat) : Int := i32ShrC (toI32 raw) 20

/-- B-immediate (decoder.rs, imm_b). -/
def imm_b (raw : Nat) : Int :=
  i32Or (i32Or (i32Or (i32ShlC (i32ShrC (toI32 raw) 31) 12)
    (toI32 (((raw >>> 7) &&& 0x1) <<< 11)))
    (toI32 (((raw >>> 25) &&& 0x3f) <<< 5)))
    (toI32 (((raw >>> 8) &&& 0xf) <<< 1))

/-- S-immediate (decoder.rs, imm_s). -/
def imm_s (raw : Nat) : Int :=
  i32Or (i32ShlC (i32ShrC (toI32 raw) 25) 5) (toI32 ((raw >>> 7) &&& 0x1f))

/-- J-immediate (decoder.rs, imm_j). -/
def imm_j (raw : Nat) : Int :=
  i32Or (i32Or (i32Or (i32ShlC (i32ShrC (toI32 raw) 31) 20)
    (toI32 (raw &&& (0xff <<< 12))))
    (toI32 (((raw >>> 20) &&& 0x1) <<< 11)))
    (toI32 (((raw >>> 21) &&& 0x3ff) <<< 1))

/-- U-immediate: bits 31:12 as a signed value (decoder.rs, imm_u). -/
def imm_u (raw : Nat) : Int := i32ShrC (toI32 raw) 12

/-- The decoder (decoder.rs, decode): field extraction and dispatch on the
major opcode; every unrecognized combination returns IllegalInstruction
with the raw word. -/
def decode (raw : Nat) : Except RVException Instruction :=
  let rd := (raw >>> 7) &&& 0x1f
  let rs1 := (raw >>> 15) &&& 0x1f
  let rs2 := (raw >>> 20) &&& 0x1f
  let f3 := (raw >>> 12) &&& 0x7
  let f7 := (raw % U32MOD) >>> 25
  match Opcode.fromU32 (raw &&& 0x7f) with
  | none => .error (.IllegalInstruction raw)
  | some opcode =>
    match opcode with
    | .ARITH_REG | .ATOMIC =>
      match RInstruction.new opcode f3 f7 with
      | some inst => .ok (.RType rd rs1 rs2 inst)
      | none => .error (.IllegalInstruction raw)
    | .ARITH_IMM | .LOAD | .JALR | .SYSTEM | .FENCE =>
      let imm := imm_i raw
      match IInstruction.new opcode f3 imm with
      | some inst => .ok (.IType imm rd rs1 inst)
      | none => .error (.IllegalInstruction raw)
    | .BRANCH =>
      match SBInstruction.new opcode f3 with
      | some inst => .ok (.SBType (imm_b raw) rs1 rs2 inst)
      | none => .error (.IllegalInstruction raw)
    | .STORE =>
      match SBInstruction.new opcode f3 with
      | some inst => .ok (.SBType (imm_s raw) rs1 rs2 inst)
      | none => .error (.IllegalInstruction raw)
    | .JAL => .ok (.UJType (imm_j raw) rd (UJInstruction.new opcode))
    | .LUI | .AUIPC => .ok (.UJType (imm_u raw) rd (UJInstruction.new opcode))

instance {e a : Type} [DecidableEq e] [DecidableEq a] : DecidableEq (Except e a) :=
  fun x y =>
    match x, y with
    | .ok u, .ok v => decidable_of_iff (u = v) (by simp)
    | .error u, .error v => decidable_of_iff (u = v) (by simp)
    | .ok _, .error _ => isFalse (fun h => Except.noConfusion h)
    | .error _, .ok _ => isFalse (fun h => Except.noConfusion h)

/-- The CPU state (cpu.rs, Cpu): register file, CSR file, bus, the
reservation set of lr.w, privilege mode and program counter.  The step
pacing fields delay and count have no architectural effect. -/
structure Cpu where
  regfile : RegFile
  csrfile : CSRFile
  bus : Bus
  amoreserved : List Nat
  mode : ExecMode
  pc : Nat

/-- RAM base address (cpu.rs, RAM_START). -/
def RAM_START : Nat := 0x80000000

namespace Cpu

/-- Trap entry (cpu.rs, Cpu::trap_entry): disable interrupts, compute
mtval, then write mtval, mcause and mepc and jump to mtvec.  The
riscv-tests harness check compares against an environment-call variant
named RVException::EnvironmentCall in the source (this enum revision names
it EnvironmentCallM) and terminates the process on a hit, modelled as
none.  The mode and mstatus.MPP are not touched. -/
def trap_entry (cpu : Cpu) (exception : RVException) : Option Cpu :=
  let cpu := { cpu with csrfile := cpu.csrfile.disable_irq }
  let mtval : Nat :=
    match exception with
    | .InstructionAddressMisaligned addr => addr % U32MOD
    | .InstructionAccessFault addr => addr % U32MOD
    | .IllegalInstruction instruction => instruction
    | .LoadAddressMisaligned addr => addr % U32MOD
    | .LoadAccessFault addr => addr % U32MOD
    | .StoreAddressMisaligned addr => addr % U32MOD
    | .StoreAccessFault addr => addr % U32MOD
    | _ => 0
  if exception = .EnvironmentCallM ∧ cpu.regfile.read 17 = 93 then none
  else
    let c := cpu.csrfile.write 0x343 (toI32 mtval)
    let c := c.write 0x342 (toI32 exception.to_ecode)
    let c := c.write 0x341 (toI32 (cpu.pc % U32MOD))
    some { cpu with csrfile := c, pc := toU32 (c.read 0x305) }

end Cpu

/-- Mapping of bus errors raised while loading (alu.rs,
handle_load_error). -/
def handle_load_error : BusError → RVException
  | .AddressMisaligned addr => .LoadAddressMisaligned addr
  | .AddressUnmapped addr => .LoadAccessFault addr

/-- Mapping of bus errors raised while storing (alu.rs,
handle_store_error). -/
def handle_store_error : BusError → RVException
  | .AddressMisaligned addr => .StoreAddressMisaligned addr
  | .AddressUnmapped addr => .StoreAccessFault addr

/-- Sign extension of the low bits of a loaded value (the i8 / i16 reads
of the bus followed by the as i32 casts of alu.rs). -/
def sext (bits : Nat) (n : Nat) : Int :=
  if n % 2 ^ bits < 2 ^ (bits - 1) then ((n % 2 ^ bits : Nat) : Int)
  else ((n % 2 ^ bits : Nat) : Int) - ((2 ^ bits : Nat) : Int)

/-- Execution of I-type instructions (alu.rs, exec_i).  Returns none on
the panicking paths (sret, and mret with an undecodable MPP field). -/
def exec_i (cpu : Cpu) (rs1 rd : Nat) (imm : Int) (inst : IInstruction) :
    Option (Except RVException Cpu) :=
  let rs1_data := cpu.regfile.read rs1
  let wb (cpu : Cpu) (result : Int) : Option (Except RVException Cpu) :=
    some (.ok { cpu with regfile := cpu.regfile.write rd result })
  match inst with
  | .addi => wb cpu (wrap32 (rs1_data + imm))
  | .xori => wb cpu (i32Xor rs1_data imm)
  | .ori => wb cpu (i32Or rs1_data imm)
  | .andi => wb cpu (i32And rs1_data imm)
  | .slli => wb cpu (rustShl rs1_data (i32And imm 0x1f))
  | .srli => wb cpu (rustShrLogical rs1_data (i32And imm 0x1f))
  | .srai => wb cpu (rustShrArith rs1_data (i32And imm 0x1f))
  | .slti => wb cpu (if rs1_data < imm then 1 else 0)
  | .sltiu => wb cpu (if toU32 rs1_data < toU32 imm then 1 else 0)
  | .lb =>
    match Bus.load 1 cpu.bus (toU32 (rs1_data + imm)) with
    | .error e => some (.error (handle_load_error e))
    | .ok v => wb cpu (sext 8 v)
  | .lh =>
    match Bus.load 2 cpu.bus (toU32 (rs1_data + imm)) with
    | .error e => some (.error (handle_load_error e))
    | .ok v => wb cpu (sext 16 v)
  | .lw =>
    match Bus.load 4 cpu.bus (toU32 (rs1_data + imm)) with
    | .error e => some (.error (handle_load_error e))
    | .ok v => wb cpu (toI32 v)
  | .lbu =>
    match Bus.load 1 cpu.bus (toU32 (rs1_data + imm)) with
    | .error e => some (.error (handle_load_error e))
    | .ok v => wb cpu ((v : Int))
  | .lhu =>
    match Bus.load 2 cpu.bus (toU32 (rs1_data + imm)) with
    | .error e => some (.error (handle_load_error e))
    | .ok v => wb cpu ((v : Int))
  | .csrrw =>
    let register_data := cpu.csrfile.read imm
    let cpu := { cpu with csrfile := cpu.csrfile.write imm rs1_data }
    wb cpu register_data
  | .csrrs =>
    let register_data := cpu.csrfile.read imm
    let cpu := { cpu with csrfile := cpu.csrfile.write imm (i32Or register_data rs1_data) }
    wb cpu register_data
  | .csrrc =>
    let register_data := cpu.csrfile.read imm
    let cpu := { cpu with csrfile := cpu.csrfile.write imm (i32And register_data (i32Not rs1_data)) }
    wb cpu register_data
  | .csrrwi =>
    let register_data := cpu.csrfile.read imm
    let cpu := { cpu with csrfile := cpu.csrfile.write imm (toI32 rs1) }
    wb cpu register_data
  | .csrrsi =>
    let register_data := cpu.csrfile.read imm
    let cpu := { cpu with csrfile := cpu.csrfile.write imm (i32Or register_data (toI32 rs1)) }
    wb cpu register_data
  | .csrrci =>
    let register_data := cpu.csrfile.read imm
    let cpu := { cpu with csrfile := cpu.csrfile.write imm (i32And register_data (i32Not (toI32 rs1))) }
    wb cpu register_data
  | .jalr =>
    let old_pc := toI32 cpu.pc
    let cpu := { cpu with pc := toU32 (rs1_data + imm - 4) }
    wb cpu (wrap32 (old_pc + 4))
  | .ebreak => some (.error .BreakPoint)
  | .ecall =>
    match cpu.mode with
    | .MACHINE => some (.error .EnvironmentCallM)
    | .USER => some (.error .EnvironmentCallU)
  | .fence => some (.ok cpu)
  | .fencei => some (.ok cpu)
  | .mret =>
    let cpu := { cpu with csrfile := cpu.csrfile.enable_irq }
    let cpu := { cpu with pc := (toU32 (cpu.csrfile.read 0x341) + (U64MOD - 4)) % U64MOD }
    match ExecMode.fromU32 cpu.csrfile.get_mpp with
    | none => none
    | some md =>
      some (.ok { cpu with mode := md, csrfile := cpu.csrfile.set_mpp ExecMode.MACHINE.toNat })
  | .sret => none
  | .wfi => some (.ok cpu)

/-- The generic atomic read-modify-write helper of exec_r (alu.rs,
amo_logic): load the word, apply the operation, store the result, return
the loaded value. -/
def amo_logic (cpu : Cpu) (rs1_data rs2_data : Int) (operation : Int → Int → Int) :
    Except RVException (Cpu × Int) :=
  match Bus.load 4 cpu.bus (toU32 rs1_data) with
  | .error e => .error (handle_load_error e)
  | .ok raw =>
    let mem_value := toI32 raw
    let result := operation mem_value rs2_data
    match Bus.store 4 cpu.bus (toU32 rs1_data) (toU32 result) with
    | (.error e, _) => .error (handle_store_error e)
    | (.ok _, bus2) => .ok ({ cpu with bus := bus2 }, mem_value)

/-- Execution of R-type instructions (alu.rs, exec_r); the computed result
is written back to rd at the end. -/
def exec_r (cpu : Cpu) (rd rs1 rs2 : Nat) (inst : RInstruction) :
    Except RVException Cpu :=
  let rs1_data := cpu.regfile.read rs1
  let rs2_data := cpu.regfile.read rs2
  let step : Except RVException (Cpu × Int) :=
    match inst with
    | .add => .ok (cpu, wrap32 (rs1_data + rs2_data))
    | .sub => .ok (cpu, wrap32 (rs1_data - rs2_data))
    | .xor => .ok (cpu, i32Xor rs1_data rs2_data)
    | .or => .ok (cpu, i32Or rs1_data rs2_data)
    | .and => .ok (cpu, i32And rs1_data rs2_data)
    | .sll => .ok (cpu, rustShl rs1_data rs2_data)
    | .srl => .ok (cpu, rustShrLogical rs1_data rs2_data)
    | .sra => .ok (cpu, rustShrArith rs1_data rs2_data)
    | .slt => .ok (cpu, if rs1_data < rs2_data then 1 else 0)
    | .sltu => .ok (cpu, if toU32 rs1_data < toU32 rs2_data then 1 else 0)
    | .amoAddW => amo_logic cpu rs1_data rs2_data (fun a b => wrap32 (a + b))
    | .amoAndW => amo_logic cpu rs1_data rs2_data i32And
    | .amoOrW => amo_logic cpu rs1_data rs2_data i32Or
    | .amoXorW => amo_logic cpu rs1_data rs2_data i32Xor
    | .amoMaxW => amo_logic cpu rs1_data rs2_data (fun a b => max a b)
    | .amoMinW => amo_logic cpu rs1_data rs2_data (fun a b => min a b)
    | .amoMaxUW => amo_logic cpu rs1_data rs2_data (fun a b => toI32 (max (toU32 a) (toU32 b)))
    | .amoMinUW => amo_logic cpu rs1_data rs2_data (fun a b => toI32 (min (toU32 a) (toU32 b)))
    | .amoSwapW => amo_logic cpu rs1_data rs2_data (fun _ b => b)
    | .lrw =>
      let addr := toU32 rs1_data
      match Bus.load 4 cpu.bus addr with
      | .error e => .error (handle_load_error e)
      | .ok raw => .ok ({ cpu with amoreserved := cpu.amoreserved.insert addr }, toI32 raw)
    | .scw =>
      let addr := toU32 rs1_data
      if addr ∈ cpu.amoreserved then
        let cpu := { cpu with amoreserved := cpu.amoreserved.filter (fun x => x != addr) }
        match Bus.store 4 cpu.bus addr (toU32 rs2_data) with
        | (.error e, _) => .error (handle_store_error e)
        | (.ok _, bus2) => .ok ({ cpu with bus := bus2 }, 0)
      else
        .ok ({ cpu with amoreserved := cpu.amoreserved.filter (fun x => x != addr) }, 1)
    | .mul => .ok (cpu, wrap32 (rs1_data * rs2_data))
    | .mulh => .ok (cpu, wrap32 (Int.fdiv (rs1_data * rs2_data) (U32MOD : Int)))
    | .mulhu => .ok (cpu, toI32 ((toU32 rs1_data * toU32 rs2_data) >>> 32))
    | .mulhsu => .ok (cpu, wrap32 (Int.fdiv (rs1_data * ((toU32 rs2_data : Nat) : Int)) (U32MOD : Int)))
    | .div => .ok (cpu, if rs2_data = 0 then -1 else wrap32 (Int.tdiv rs1_data rs2_data))
    | .divu => .ok (cpu, if rs2_data = 0 then -1 else toI32 (toU32 rs1_data / toU32 rs2_data))
    | .rem => .ok (cpu, if rs2_data = 0 then rs1_data else wrap32 (Int.tmod rs1_data rs2_data))
    | .remu => .ok (cpu, if rs2_data = 0 then rs1_data else toI32 (toU32 rs1_data % toU32 rs2_data))
  match step with
  | .error e => .error e
  | .ok (cpu2, result) => .ok { cpu2 with regfile := cpu2.regfile.write rd result }

/-- A concrete bus with a small zeroed RAM at the RAM base and an idle
UART, used by the concrete theorems below. -/
def bus0 : Bus := { ram := { addrStart := RAM_START, size := 16, bytes := fun _ => 0 }, uart := ⟨[], []⟩ }

/-- A concrete machine state: zeroed registers, mtvec = 0x200, mstatus =
0x80 (MIE clear, MPIE set, MPP = 00), machine mode, PC at the RAM base. -/
def cpu0 : Cpu :=
  { regfile := RegFile.new,
    csrfile := { CSRFile.new with mtvec := 0x200, mstatus := 0x80 },
    bus := bus0,
    amoreserved := [],
    mode := .MACHINE,
    pc := RAM_START }

/-- Claim C1: after trap entry from PC₀ with cause C, mepc must equal PC₀,
mcause the code of C, mstatus.MIE must be 0, mstatus.MPIE must equal the
old MIE, mstatus.MPP the old mode and the next PC mtvec.  Taking a
Breakpoint trap from cpu0 (old MIE = 0, old MPIE = 1, mode = Machine,
encoding 0b11) yields mepc = PC₀, mcause = 3, MIE = 0 and PC = mtvec as
claimed, but MPIE stays 1 instead of the old MIE value 0 (disable_irq
masks mstatus with the MPIE bit instead of clearing it) and MPP stays 0b00
instead of the old mode encoding 0b11 (trap entry never writes MPP). -/
theorem c1_trap_entry_mstatus_divergence :
    (Cpu.trap_entry cpu0 RVException.BreakPoint).map
      (fun c => (c.csrfile.mepc, c.csrfile.mcause, c.csrfile.mstatus &&& 8,
                 (c.csrfile.mstatus &&& 128) >>> 7, (c.csrfile.mstatus &&& 0x1800) >>> 11,
                 c.pc))
      = some (0x80000000, 3, 0, 1, 0, 0x200)
    ∧ (Cpu.trap_entry cpu0 RVException.BreakPoint).map (fun c => c.mode.toNat) = some 3
    ∧ cpu0.csrfile.mstatus &&& 8 = 0
    ∧ cpu0.mode.toNat = 3
    ∧ ¬ ((1 : Nat) = (cpu0.csrfile.mstatus &&& 8) >>> 3
         ∧ (0 : Nat) = cpu0.mode.toNat) := by
  refine ⟨by decide, by decide, by decide, by decide, by decide⟩

/-- Claim C4: SYSTEM opcode words with funct3 = 0 decode to ecall for
immediate 0 and ebreak for immediate 1, and unrecognized combinations
yield IllegalInstruction with the raw word.  The mret encoding 0x30200073
(immediate 0x302) is not recognized by the decoder tables and decodes to
IllegalInstruction instead of the mret variant that the executor expects. -/
theorem c4_system_decode :
    decode 0x00000073 = .ok (.IType 0 0 0 .ecall)
    ∧ decode 0x00100073 = .ok (.IType 1 0 0 .ebreak)
    ∧ decode 0x30200073 = .error (.IllegalInstruction 0x30200073)
    ∧ decode 0xffffffff = .error (.IllegalInstruction 0xffffffff) := by
  refine ⟨by decide, by decide, by decide, by decide⟩

/-- Bits of the constant 8 = 2^3. -/
theorem testBit_eight (j : Nat) : Nat.testBit 8 j = decide (j = 3) := by
  have h : (8 : Nat) = 2 ^ 3 := by decide
  rw [h, Nat.testBit_two_pow]
  simp [eq_comm]

/-- Bits of the constant 128 = 2^7. -/
theorem testBit_onetwentyeight (j : Nat) : Nat.testBit 128 j = decide (j = 7) := by
  have h : (128 : Nat) = 2 ^ 7 := by decide
  rw [h, Nat.testBit_two_pow]
  simp [eq_comm]

/-- Bits of the MPP mask 6144 = 2^11 + 2^12. -/
theorem testBit_mppmask (j : Nat) :
    Nat.testBit 6144 j = (decide (j = 11) || decide (j = 12)) := by
  have h : (6144 : Nat) = 2 ^ 11 ||| 2 ^ 12 := by decide
  rw [h, Nat.testBit_lor, Nat.testBit_two_pow, Nat.testBit_two_pow]
  simp [eq_comm]

/-- Bits of the mask 0xffffe7ff (all 32 bits except the MPP field). -/
theorem testBit_notmpp (j : Nat) :
    Nat.testBit 0xffffe7ff j
      = (decide (j < 32) && !(decide (j = 11) || decide (j = 12))) := by
  have h : (0xffffe7ff : Nat) = (2 ^ 32 - 1) ^^^ 6144 := by decide
  rw [h, Nat.testBit_xor, Nat.testBit_two_pow_sub_one, testBit_mppmask]
  by_cases h11 : j = 11
  · subst h11; decide
  by_cases h12 : j = 12
  · subst h12; decide
  simp [h11, h12]

/-- Bits of the mask 0xfffffff7 (all 32 bits except MIE). -/
theorem testBit_notmie (j : Nat) :
    Nat.testBit 0xfffffff7 j = (decide (j < 32) && !decide (j = 3)) := by
  have h : (0xfffffff7 : Nat) = (2 ^ 32 - 1) ^^^ 8 := by decide
  rw [h, Nat.testBit_xor, Nat.testBit_two_pow_sub_one, testBit_eight]
  by_cases h3 : j = 3
  · subst h3; decide
  simp [h3]

/-- A value masked with a single bit is nonzero exactly when that bit is
set (mask 8, the MIE bit). -/
theorem and_eight_ne (m : Nat) : (m &&& 8 ≠ 0) ↔ m.testBit 3 = true := by
  have h : (8 : Nat) = 2 ^ 3 := by decide
  rw [h, Nat.and_two_pow]
  cases hb : m.testBit 3 <;> simp [hb]

/-- A value masked with a single bit is nonzero exactly when that bit is
set (mask 128, the MPIE bit of mstatus and the MTIE and MTIP bits). -/
theorem and_onetwentyeight_ne (m : Nat) : (m &&& 128 ≠ 0) ↔ m.testBit 7 = true := by
  have h : (128 : Nat) = 2 ^ 7 := by decide
  rw [h, Nat.and_two_pow]
  cases hb : m.testBit 7 <;> simp [hb]

/-- m &&& 128 as a function of bit 7. -/
theorem and_onetwentyeight_eq (m : Nat) :
    m &&& 128 = (m.testBit 7).toNat * 128 := by
  have h : (128 : Nat) = 2 ^ 7 := by decide
  rw [h, Nat.and_two_pow]

/-- m &&& 8 as a function of bit 3. -/
theorem and_eight_eq (m : Nat) :
    m &&& 8 = (m.testBit 3).toNat * 8 := by
  have h : (8 : Nat) = 2 ^ 3 := by decide
  rw [h, Nat.and_two_pow]

/-- Round trip from u32 through i32 and back reduces modulo 2^32. -/
theorem toU32_toI32 (n : Nat) : toU32 (toI32 n) = n % U32MOD := by
  unfold toU32 toI32 U32MOD
  split <;> omega

/-- The MPP field of mstatus is untouched by enable_irq, which only
rewrites the MIE and MPIE bits. -/
theorem get_mpp_enable_irq (c : CSRFile) :
    (CSRFile.enable_irq c).get_mpp = c.get_mpp := by
  unfold CSRFile.enable_irq CSRFile.get_mpp
  simp only
  congr 1
  apply Nat.eq_of_testBit_eq
  intro i
  simp only [Nat.testBit_land, Nat.testBit_lor, testBit_mppmask, testBit_onetwentyeight,
    testBit_notmie, testBit_eight]
  split
  · cases h11 : decide (i = 11) <;> cases h12 : decide (i = 12) <;>
      cases hm : c.mstatus.testBit i <;> simp_all [testBit_eight, testBit_notmie]
  · cases h11 : decide (i = 11) <;> cases h12 : decide (i = 12) <;>
      cases hm : c.mstatus.testBit i <;> simp_all [testBit_eight, testBit_notmie]

/-- The mstatus value produced by mret (enable_irq followed by set_mpp
with the Machine encoding): its MIE bit equals the old MPIE bit, its MPIE
bit is set, and its MPP field is 0b11. -/
theorem mret_mstatus_fact (m : Nat) :
    (((((if m &&& 128 ≠ 0 then m ||| 8 else m &&& 0xfffffff7) ||| 128) &&& 0xffffe7ff)
        ||| ((3 &&& 3) <<< 11)) &&& 8 ≠ 0 ↔ m &&& 128 ≠ 0)
    ∧ ((((if m &&& 128 ≠ 0 then m ||| 8 else m &&& 0xfffffff7) ||| 128) &&& 0xffffe7ff)
        ||| ((3 &&& 3) <<< 11)) &&& 128 = 128
    ∧ (((((if m &&& 128 ≠ 0 then m ||| 8 else m &&& 0xfffffff7) ||| 128) &&& 0xffffe7ff)
        ||| ((3 &&& 3) <<< 11)) &&& 6144) >>> 11 = 3 := by
  have h6144 : ((3 &&& 3) <<< 11 : Nat) = 6144 := by decide
  rw [h6144]
  refine ⟨?_, ?_, ?_⟩
  · have hb : ((((if m &&& 128 ≠ 0 then m ||| 8 else m &&& 0xfffffff7) ||| 128) &&& 0xffffe7ff)
        ||| 6144).testBit 3 = m.testBit 7 := by
      split
      · rename_i h
        rw [and_onetwentyeight_ne] at h
        simp [Nat.testBit_lor, Nat.testBit_land, testBit_notmpp, testBit_mppmask,
          testBit_eight, testBit_onetwentyeight, h]
      · rename_i h
        rw [not_not] at h
        have h7 : m.testBit 7 = false := by
          by_contra hc
          rw [Bool.not_eq_false] at hc
          rw [← and_onetwentyeight_ne] at hc
          exact hc h
        simp [Nat.testBit_lor, Nat.testBit_land, testBit_notmpp, testBit_mppmask,
          testBit_eight, testBit_onetwentyeight, testBit_notmie, h7]
    rw [and_eight_ne, hb]
    exact (and_onetwentyeight_ne m).symm
  · have hb : ((((if m &&& 128 ≠ 0 then m ||| 8 else m &&& 0xfffffff7) ||| 128) &&& 0xffffe7ff)
        ||| 6144).testBit 7 = true := by
      split <;>
        simp [Nat.testBit_lor, Nat.testBit_land, testBit_notmpp, testBit_mppmask,
          testBit_eight, testBit_onetwentyeight, testBit_notmie]
    rw [and_onetwentyeight_eq, hb]
    decide
  · have hs : ((((if m &&& 128 ≠ 0 then m ||| 8 else m &&& 0xfffffff7) ||| 128) &&& 0xffffe7ff)
        ||| 6144) &&& 6144 = 6144 := by
      apply Nat.eq_of_testBit_eq
      intro i
      simp only [Nat.testBit_land, Nat.testBit_lor, testBit_mppmask]
      cases h11 : decide (i = 11) <;> cases h12 : decide (i = 12) <;> simp_all
    rw [hs]
    decide

/-- Claim C2 (amended): for every machine state whose mstatus.MPP field
holds a valid mode encoding (0b00 or 0b11), executing mret restores
mstatus.MIE from mstatus.MPIE, sets mstatus.MPIE to 1, sets the execution
mode to the value of mstatus.MPP, resets mstatus.MPP to Machine, and the
PC after the outer +4 equals mepc.  For the MPP encodings 0b01 and 0b10
the source panics instead (see the counterexample). -/
theorem c2_mret_restores_state (cpu : Cpu) (rs1 rd : Nat) (imm : Int)
    (h : cpu.csrfile.get_mpp = 0 ∨ cpu.csrfile.get_mpp = 3) :
    ∃ cpu2, exec_i cpu rs1 rd imm .mret = some (.ok cpu2)
      ∧ ((cpu2.csrfile.mstatus &&& 8 ≠ 0) ↔ (cpu.csrfile.mstatus &&& 128 ≠ 0))
      ∧ cpu2.csrfile.mstatus &&& 128 = 128
      ∧ ExecMode.fromU32 cpu.csrfile.get_mpp = some cpu2.mode
      ∧ cpu2.csrfile.get_mpp = 3
      ∧ (cpu2.pc + 4) % U64MOD = cpu.csrfile.mepc % U32MOD := by
  have hmpp := get_mpp_enable_irq cpu.csrfile
  have hfact := mret_mstatus_fact cpu.csrfile.mstatus
  have hpcv : (toU32 ((CSRFile.enable_irq cpu.csrfile).read 0x341) + (U64MOD - 4)) % U64MOD
      = (cpu.csrfile.mepc % U32MOD + (U64MOD - 4)) % U64MOD := by
    simp only [CSRFile.read, CSRFile.enable_irq]
    norm_num [toU32_toI32]
  have hpc : ((cpu.csrfile.mepc % U32MOD + (U64MOD - 4)) % U64MOD + 4) % U64MOD
      = cpu.csrfile.mepc % U32MOD := by
    unfold U64MOD U32MOD
    omega
  rcases h with h | h
  · have hE : exec_i cpu rs1 rd imm .mret = some (.ok
        { cpu with
          csrfile := (CSRFile.enable_irq cpu.csrfile).set_mpp (ExecMode.toNat .MACHINE),
          pc := (toU32 ((CSRFile.enable_irq cpu.csrfile).read 0x341) + (U64MOD - 4)) % U64MOD,
          mode := .USER }) := by
      simp only [exec_i, hmpp, h, ExecMode.fromU32]
      norm_num
    refine ⟨_, hE, ?_, ?_, ?_, ?_, ?_⟩
    · simp only [CSRFile.set_mpp, CSRFile.enable_irq, ExecMode.toNat]
      exact hfact.1
    · simp only [CSRFile.set_mpp, CSRFile.enable_irq, ExecMode.toNat]
      exact hfact.2.1
    · rw [h]
      rfl
    · simp only [CSRFile.get_mpp, CSRFile.set_mpp, CSRFile.enable_irq, ExecMode.toNat]
      exact hfact.2.2
    · simp only
      rw [hpcv, hpc]
  · have hE : exec_i cpu rs1 rd imm .mret = some (.ok
        { cpu with
          csrfile := (CSRFile.enable_irq cpu.csrfile).set_mpp (ExecMode.toNat .MACHINE),
          pc := (toU32 ((CSRFile.enable_irq cpu.csrfile).read 0x341) + (U64MOD - 4)) % U64MOD,
          mode := .MACHINE }) := by
      simp only [exec_i, hmpp, h, ExecMode.fromU32]
      norm_num
    refine ⟨_, hE, ?_, ?_, ?_, ?_, ?_⟩
    · simp only [CSRFile.set_mpp, CSRFile.enable_irq, ExecMode.toNat]
      exact hfact.1
    · simp only [CSRFile.set_mpp, CSRFile.enable_irq, ExecMode.toNat]
      exact hfact.2.1
    · rw [h]
      rfl
    · simp only [CSRFile.get_mpp, CSRFile.set_mpp, CSRFile.enable_irq, ExecMode.toNat]
      exact hfact.2.2
    · simp only
      rw [hpcv, hpc]

/-- A machine state whose mstatus.MPP field holds 0b01, reachable by a
csrrw write of 0x800 to mstatus. -/
def cpuMpp01 : Cpu := { cpu0 with csrfile := { CSRFile.new with mstatus := 0x800 } }

/-- Claim C2 as stated is false: from a state with mstatus.MPP = 0b01,
executing mret produces no successor state at all; the source panics on
ExecMode::from_u32(...).unwrap(), so no state with mode equal to the MPP
value (or any of the claimed postconditions) results. -/
theorem c2_mret_mpp01_panics : exec_i cpuMpp01 0 0 0x302 .mret = none := by
  rfl

/-- Witness for c2_mret_restores_state at a concrete state with
mstatus.MPP = 0b11 (mstatus = 0x1880). -/
def cpuW : Cpu :=
  { cpu0 with csrfile := { CSRFile.new with mstatus := 0x1880, mepc := 0x80000008 } }

theorem c2_mret_restores_state_witness :
    (cpuW.csrfile.get_mpp = 0 ∨ cpuW.csrfile.get_mpp = 3)
    ∧ (∃ cpu2, exec_i cpuW 0 0 0x302 .mret = some (.ok cpu2)
      ∧ ((cpu2.csrfile.mstatus &&& 8 ≠ 0) ↔ (cpuW.csrfile.mstatus &&& 128 ≠ 0))
      ∧ cpu2.csrfile.mstatus &&& 128 = 128
      ∧ ExecMode.fromU32 cpuW.csrfile.get_mpp = some cpu2.mode
      ∧ cpu2.csrfile.get_mpp = 3
      ∧ (cpu2.pc + 4) % U64MOD = cpuW.csrfile.mepc % U32MOD) :=
  ⟨by decide, c2_mret_restores_state cpuW 0 0 0x302 (by decide)⟩

/-- Masking an i32 with 0x1f and casting to u32 is reduction modulo 32. -/
theorem toU32_i32And_31 (s : Int) : toU32 (i32And s 0x1f) = toU32 s % 32 := by
  have h31 : toU32 (0x1f : Int) = 31 := by decide
  have h1 : toU32 s &&& 31 = toU32 s % 32 := by
    have := Nat.and_pow_two_sub_one_eq_mod (toU32 s) 5
    simpa using this
  unfold i32And
  rw [h31, h1]
  unfold toU32 toI32 U32MOD
  split <;> omega


/-- Claim C5: the shift instructions sll, srl, sra and their immediate
forms slli, srli, srai shift by only the low 5 bits of the shift amount
(rs2 or immediate), for any value of its other bits: each one computes
the result of shifting rs1 by the amount masked with 0x1f.  The immediate
forms mask explicitly in the source; the register forms pass rs2 to the
Rust shift operators, whose optimized-build semantics reduce the amount
modulo 32 (debug builds panic for amounts outside 0..31). -/
theorem c5_shifts_mask_low5 (cpu : Cpu) (rd rs1 rs2 : Nat) (imm : Int) :
    exec_r cpu rd rs1 rs2 .sll = .ok { cpu with regfile := cpu.regfile.write rd (rustShl (cpu.regfile.read rs1) (i32And (cpu.regfile.read rs2) 0x1f)) }
    ∧ exec_r cpu rd rs1 rs2 .srl = .ok { cpu with regfile := cpu.regfile.write rd (rustShrLogical (cpu.regfile.read rs1) (i32And (cpu.regfile.read rs2) 0x1f)) }
    ∧ exec_r cpu rd rs1 rs2 .sra = .ok { cpu with regfile := cpu.regfile.write rd (rustShrArith (cpu.regfile.read rs1) (i32And (cpu.regfile.read rs2) 0x1f)) }
    ∧ exec_i cpu rs1 rd imm .slli = some (.ok { cpu with regfile := cpu.regfile.write rd (rustShl (cpu.regfile.read rs1) (i32And imm 0x1f)) })
    ∧ exec_i cpu rs1 rd imm .srli = some (.ok { cpu with regfile := cpu.regfile.write rd (rustShrLogical (cpu.regfile.read rs1) (i32And imm 0x1f)) })
    ∧ exec_i cpu rs1 rd imm .srai = some (.ok { cpu with regfile := cpu.regfile.write rd (rustShrArith (cpu.regfile.read rs1) (i32And imm 0x1f)) }) := by
  have hshl : ∀ x s : Int, rustShl x s = rustShl x (i32And s 0x1f) := by
    intro x s
    unfold rustShl
    rw [toU32_i32And_31, Nat.mod_mod_of_dvd _ (by norm_num)]
  have hshrl : ∀ x s : Int, rustShrLogical x s = rustShrLogical x (i32And s 0x1f) := by
    intro x s
    unfold rustShrLogical
    rw [toU32_i32And_31, Nat.mod_mod_of_dvd _ (by norm_num)]
  have hshra : ∀ x s : Int, rustShrArith x s = rustShrArith x (i32And s 0x1f) := by
    intro x s
    unfold rustShrArith
    rw [toU32_i32And_31, Nat.mod_mod_of_dvd _ (by norm_num)]
  refine ⟨?_, ?_, ?_, rfl, rfl, rfl⟩
  · simp only [exec_r]
    rw [← hshl]
  · simp only [exec_r]
    rw [← hshrl]
  · simp only [exec_r]
    rw [← hshra]

/-- Claim C6: div and divu with divisor 0 write -1 (all ones) to rd, rem
and remu with divisor 0 write the dividend unchanged, and for the signed
overflow case INT_MIN / -1, div writes INT_MIN and rem writes 0. -/
theorem c6_div_rem_edge_cases (cpu : Cpu) (rd rs1 rs2 : Nat) :
    (cpu.regfile.read rs2 = 0 →
      exec_r cpu rd rs1 rs2 .div = .ok { cpu with regfile := cpu.regfile.write rd (-1) }
      ∧ exec_r cpu rd rs1 rs2 .divu = .ok { cpu with regfile := cpu.regfile.write rd (-1) }
      ∧ exec_r cpu rd rs1 rs2 .rem = .ok { cpu with regfile := cpu.regfile.write rd (cpu.regfile.read rs1) }
      ∧ exec_r cpu rd rs1 rs2 .remu = .ok { cpu with regfile := cpu.regfile.write rd (cpu.regfile.read rs1) })
    ∧ (cpu.regfile.read rs1 = -2147483648 ∧ cpu.regfile.read rs2 = -1 →
      exec_r cpu rd rs1 rs2 .div = .ok { cpu with regfile := cpu.regfile.write rd (-2147483648) }
      ∧ exec_r cpu rd rs1 rs2 .rem = .ok { cpu with regfile := cpu.regfile.write rd 0 }) := by
  constructor
  · intro h
    refine ⟨?_, ?_, ?_, ?_⟩ <;> simp only [exec_r, h] <;> norm_num
  · rintro ⟨h1, h2⟩
    have hd : wrap32 2147483648 = -2147483648 := by decide
    have hr : wrap32 0 = 0 := by decide
    constructor <;> simp only [exec_r, h1, h2] <;> norm_num [hd, hr]

/-- A concrete state with x1 = 7 and x2 = 0. -/
def cpuDiv0 : Cpu := { cpu0 with regfile := (RegFile.new.write 1 7).write 2 0 }

/-- A concrete state with x1 = INT_MIN and x2 = -1. -/
def cpuDivOvf : Cpu :=
  { cpu0 with regfile := (RegFile.new.write 1 (-2147483648)).write 2 (-1) }

theorem c6_div_rem_edge_cases_witness :
    cpuDiv0.regfile.read 2 = 0
    ∧ exec_r cpuDiv0 5 1 2 .div = .ok { cpuDiv0 with regfile := cpuDiv0.regfile.write 5 (-1) }
    ∧ exec_r cpuDiv0 5 1 2 .rem = .ok { cpuDiv0 with regfile := cpuDiv0.regfile.write 5 (cpuDiv0.regfile.read 1) }
    ∧ exec_r cpuDivOvf 5 1 2 .div = .ok { cpuDivOvf with regfile := cpuDivOvf.regfile.write 5 (-2147483648) }
    ∧ exec_r cpuDivOvf 5 1 2 .rem = .ok { cpuDivOvf with regfile := cpuDivOvf.regfile.write 5 0 } :=
  ⟨by decide,
   ((c6_div_rem_edge_cases cpuDiv0 5 1 2).1 (by decide)).1,
   ((c6_div_rem_edge_cases cpuDiv0 5 1 2).1 (by decide)).2.2.1,
   ((c6_div_rem_edge_cases cpuDivOvf 5 1 2).2 ⟨by decide, by decide⟩).1,
   ((c6_div_rem_edge_cases cpuDivOvf 5 1 2).2 ⟨by decide, by decide⟩).2⟩

/-- Claim C8: for widths 2 and 4, a misaligned bus access fails with the
misaligned error variant and leaves every device untouched: the store
returns the bus unchanged, so no RAM byte is written and no UART output
occurs. -/
theorem c8_misaligned_no_side_effect (b : Bus) (w addr data : Nat)
    (hw : w = 2 ∨ w = 4) (hmis : addr % w ≠ 0) :
    Bus.load w b addr = .error (.AddressMisaligned addr)
    ∧ Bus.store w b addr data = (.error (.AddressMisaligned addr), b) := by
  constructor
  · unfold Bus.load
    rw [if_pos hmis]
  · unfold Bus.store
    rw [if_pos hmis]

theorem c8_misaligned_no_side_effect_witness :
    (0x80000002 : Nat) % 4 ≠ 0
    ∧ Bus.load 4 bus0 0x80000002 = .error (.AddressMisaligned 0x80000002)
    ∧ Bus.store 4 bus0 0x80000002 7 = (.error (.AddressMisaligned 0x80000002), bus0) :=
  ⟨by decide,
   (c8_misaligned_no_side_effect bus0 4 0x80000002 7 (Or.inr rfl) (by decide)).1,
   (c8_misaligned_no_side_effect bus0 4 0x80000002 7 (Or.inr rfl) (by decide)).2⟩

/-- Claim C10: the bus checks alignment before address decode, so a
misaligned access whose address lies outside every device range fails
with AddressMisaligned, never with AddressUnmapped. -/
theorem c10_alignment_before_decode (b : Bus) (w addr data : Nat)
    (hw : w = 2 ∨ w = 4) (hmis : addr % w ≠ 0)
    (hram : addr < b.ram.addrStart ∨ b.ram.addrStart + b.ram.size ≤ addr)
    (huart : addr < UART_BASE ∨ UART_BASE + 0xff ≤ addr) :
    Bus.load w b addr = .error (.AddressMisaligned addr)
    ∧ (Bus.store w b addr data).1 = .error (.AddressMisaligned addr) := by
  constructor
  · unfold Bus.load
    rw [if_pos hmis]
  · unfold Bus.store
    rw [if_pos hmis]

theorem c10_alignment_before_decode_witness :
    ((0x02000001 : Nat) % 2 ≠ 0)
    ∧ Bus.load 2 bus0 0x02000001 = .error (.AddressMisaligned 0x02000001)
    ∧ (Bus.store 2 bus0 0x02000001 7).1 = .error (.AddressMisaligned 0x02000001) :=
  ⟨by decide,
   (c10_alignment_before_decode bus0 2 0x02000001 7 (Or.inl rfl) (by decide)
     (by decide) (by decide)).1,
   (c10_alignment_before_decode bus0 2 0x02000001 7 (Or.inl rfl) (by decide)
     (by decide) (by decide)).2⟩

/-- The idle UART: empty buffer, nothing emitted. -/
def uart0 : Uart := ⟨[], []⟩

/-- Claim C9 as stated is false: a byte stored with width 1 to the UART
data register at 0x1000_0000 is not emitted on standard output; storing
the single byte 0x4F of "O" emits nothing at all, the byte only joins the
internal buffer. -/
theorem c9_uart_byte_not_emitted :
    (Uart.store 1 uart0 0x10000000 0x4F).emitted = []
    ∧ (Uart.store 1 uart0 0x10000000 0x4F).buffer = [0x4F] := by
  decide

/-- Claim C9 (amended): width-1 stores to the UART data register are
buffered; a newline byte flushes the whole buffer (without the newline)
as one log-warning event and clears it, every other byte is appended to
the buffer; writing the bytes of "OK\x5cn" therefore produces a single
flush event carrying exactly the bytes of "OK". -/
theorem c9_uart_buffering (u : Uart) (data : Nat) :
    (data % 256 = 10 →
      Uart.store 1 u UART_BASE data = { buffer := [], emitted := u.emitted ++ [u.buffer] })
    ∧ (data % 256 ≠ 10 →
      Uart.store 1 u UART_BASE data = { u with buffer := u.buffer ++ [data % 256] })
    ∧ (Uart.store 1 (Uart.store 1 (Uart.store 1 u UART_BASE 0x4F) UART_BASE 0x4B) UART_BASE 10)
      = { buffer := [], emitted := u.emitted ++ [u.buffer ++ [0x4F, 0x4B]] } := by
  refine ⟨?_, ?_, ?_⟩
  · intro h
    simp [Uart.store, h]
  · intro h
    simp [Uart.store, h]
  · simp [Uart.store]

theorem c9_uart_buffering_witness :
    Uart.store 1 uart0 UART_BASE 10 = { buffer := [], emitted := [[]] }
    ∧ Uart.store 1 uart0 UART_BASE 0x42 = { buffer := [0x42], emitted := [] }
    ∧ (Uart.store 1 (Uart.store 1 (Uart.store 1 uart0 UART_BASE 0x4F) UART_BASE 0x4B) UART_BASE 10)
      = { buffer := [], emitted := [[0x4F, 0x4B]] } :=
  ⟨by simpa using (c9_uart_buffering uart0 10).1 (by decide),
   by simpa using (c9_uart_buffering uart0 0x42).2.1 (by decide),
   by simpa using (c9_uart_buffering uart0 10).2.2⟩

/-- The low four little-endian bytes of a 64-bit value decode to its low
word. -/
theorem fromMem_take4_toLeBytes8 (n : Nat) :
    fromMem 4 ((toLeBytes 8 n).take 4) = n % U32MOD := by
  simp [toLeBytes, fromMem, fromLeBytes, U32MOD]
  omega

/-- The high four little-endian bytes of a 64-bit value decode to its
high word. -/
theorem fromMem_drop4_toLeBytes8 (n : Nat) :
    fromMem 4 ((toLeBytes 8 n).drop 4) = n / U32MOD % U32MOD := by
  simp [toLeBytes, fromMem, fromLeBytes, U32MOD]
  omega

/-- Claim C3 as stated is false: a 32-bit bus access at 0x0200_4000 (the
CLINT base of the spec plus the mtimecmp offset) is not handled by the CLINT
but fails with AddressUnmapped. -/
theorem c3_clint_range_unmapped :
    Bus.load 4 bus0 0x02004000 = .error (.AddressUnmapped 0x02004000)
    ∧ (Bus.store 4 bus0 0x02004000 7).1 = .error (.AddressUnmapped 0x02004000) := by
  decide

/-- Claim C3 (amended): the bus dispatches only RAM and UART, so every
aligned access outside those two ranges, including the whole claimed
CLINT range starting at 0x0200_0000, fails with AddressUnmapped.  The
CLINT device itself, which is never reached through Bus::load or
Bus::store, decodes from base 0x1100_0000 with the low word of mtimecmp
at offset +0x4000, its high word at +0x4004, the low word of mtime at
+0xBFF8 and its high word at +0xBFFC. -/
theorem c3_bus_unmapped_and_clint_regs (b : Bus) (w addr data : Nat) (c : Clint)
    (hal : addr % w = 0)
    (hram : addr < b.ram.addrStart ∨ b.ram.addrStart + b.ram.size ≤ addr)
    (huart : addr < UART_BASE ∨ UART_BASE + 0xff ≤ addr) :
    Bus.load w b addr = .error (.AddressUnmapped addr)
    ∧ (Bus.store w b addr data).1 = .error (.AddressUnmapped addr)
    ∧ CLINT_BASE = 0x11000000
    ∧ Clint.load 4 c (CLINT_BASE + 0x4000) = .ok (c.mtimecmp % U32MOD)
    ∧ Clint.load 4 c (CLINT_BASE + 0x4004) = .ok (c.mtimecmp % U64MOD / U32MOD)
    ∧ Clint.load 4 c (CLINT_BASE + 0xBFF8) = .ok (c.mtime % U32MOD)
    ∧ Clint.load 4 c (CLINT_BASE + 0xBFFC) = .ok (c.mtime % U64MOD / U32MOD) := by
  have hnal : ¬ (addr % w ≠ 0) := by simp [hal]
  have hr : ¬ (b.ram.addrStart ≤ addr ∧ addr < b.ram.addrStart + b.ram.size) := by
    rcases hram with h | h <;> omega
  have hu : ¬ (UART_BASE ≤ addr ∧ addr < UART_BASE + 0xff) := by
    rcases huart with h | h <;> omega
  refine ⟨?_, ?_, rfl, ?_, ?_, ?_, ?_⟩
  · unfold Bus.load
    rw [if_neg hnal, if_neg hr, if_neg hu]
  · unfold Bus.store
    rw [if_neg hnal, if_neg hr, if_neg hu]
  · unfold Clint.load
    norm_num [fromMem_take4_toLeBytes8]
    unfold U64MOD U32MOD
    omega
  · unfold Clint.load
    norm_num [fromMem_drop4_toLeBytes8]
    unfold U64MOD U32MOD
    omega
  · unfold Clint.load
    norm_num [fromMem_take4_toLeBytes8]
    unfold U64MOD U32MOD
    omega
  · unfold Clint.load
    norm_num [fromMem_drop4_toLeBytes8]
    unfold U64MOD U32MOD
    omega

theorem c3_bus_unmapped_and_clint_regs_witness :
    Bus.load 4 bus0 0x02000000 = .error (.AddressUnmapped 0x02000000)
    ∧ (Bus.store 4 bus0 0x02000000 7).1 = .error (.AddressUnmapped 0x02000000)
    ∧ Clint.load 4 ⟨0xdeadbeefcafebabe, 0x1234567811223344⟩ (CLINT_BASE + 0x4000) = .ok 0xcafebabe
    ∧ Clint.load 4 ⟨0xdeadbeefcafebabe, 0x1234567811223344⟩ (CLINT_BASE + 0xBFFC) = .ok 0x12345678 :=
  ⟨(c3_bus_unmapped_and_clint_regs bus0 4 0x02000000 7 ⟨0xdeadbeefcafebabe, 0x1234567811223344⟩
      (by decide) (by decide) (by decide)).1,
   (c3_bus_unmapped_and_clint_regs bus0 4 0x02000000 7 ⟨0xdeadbeefcafebabe, 0x1234567811223344⟩
      (by decide) (by decide) (by decide)).2.1,
   by simpa using (c3_bus_unmapped_and_clint_regs bus0 4 0x02000000 7
      ⟨0xdeadbeefcafebabe, 0x1234567811223344⟩ (by decide) (by decide) (by decide)).2.2.2.1,
   by simpa using (c3_bus_unmapped_and_clint_regs bus0 4 0x02000000 7
      ⟨0xdeadbeefcafebabe, 0x1234567811223344⟩ (by decide) (by decide) (by decide)).2.2.2.2.2.2⟩

/-- Reading a register other than the one just written sees the old
register file. -/
theorem RegFile.read_write_ne (rf : RegFile) (rd n : Nat) (v : Int) (h : rd ≠ n) :
    (rf.write rd v).read n = rf.read n := by
  unfold RegFile.read RegFile.write
  by_cases h0 : n = 0
  · simp [h0]
  · by_cases hrd : rd > 0
    · simp only [if_pos hrd, if_neg h0]
      have : ¬ (n - 1 = rd - 1) := by omega
      simp [this]
    · simp [hrd]

/-- Byte writes at or above a higher index leave lower positions
untouched. -/
theorem writeBytesFun_lt (bs : List Nat) (f : Nat → Nat) (idx j : Nat) (h : j < idx) :
    writeBytesFun f idx bs j = f j := by
  induction bs generalizing f idx with
  | nil => rfl
  | cons b rest ih =>
    simp only [writeBytesFun]
    rw [ih _ _ (by omega)]
    simp [Nat.ne_of_lt h]

/-- Reading back the bytes just written returns them unchanged. -/
theorem readBytes_writeBytesFun (bs : List Nat) (f : Nat → Nat) (idx : Nat) :
    readBytes (writeBytesFun f idx bs) idx bs.length = bs := by
  induction bs generalizing f idx with
  | nil => rfl
  | cons b rest ih =>
    simp only [writeBytesFun, List.length_cons, readBytes]
    rw [writeBytesFun_lt rest _ _ _ (Nat.lt_succ_self idx)]
    simp [ih]

/-- toLeBytes produces exactly W bytes. -/
theorem toLeBytes_length (w n : Nat) : (toLeBytes w n).length = w := by
  induction w generalizing n with
  | zero => rfl
  | succ k ih => simp [toLeBytes, ih]

/-- Decoding the four little-endian bytes of a value yields it modulo
2^32. -/
theorem fromMem_toLeBytes4 (n : Nat) : fromMem 4 (toLeBytes 4 n) = n % U32MOD := by
  simp [toLeBytes, fromMem, fromLeBytes, U32MOD]
  omega

/-- A word load following a word store to the same RAM address returns
the stored word. -/
theorem ram_load_store (r : Ram) (addr data : Nat) :
    Ram.load 4 (Ram.store 4 r addr data) addr = data % U32MOD := by
  unfold Ram.load Ram.store
  have h := readBytes_writeBytesFun (toLeBytes 4 data) r.bytes (addr - r.addrStart)
  rw [toLeBytes_length] at h
  simp only
  rw [h, fromMem_toLeBytes4]

/-- The address itself never survives a reservation-clearing filter. -/
theorem not_mem_filter_self (A : Nat) (l : List Nat) : A ∉ l.filter (fun x => x != A) := by
  simp [List.mem_filter]

/-- Values cast to u32 are below 2^32. -/
theorem toU32_lt (x : Int) : toU32 x < U32MOD := by
  unfold toU32 U32MOD
  omega

/-- Claim C7: for a mapped, aligned RAM word address A held in rs1, lr.w
followed immediately by sc.w with value rs2 stores that value to memory
(the word load at A afterwards returns it) and writes 0 to rd; an sc.w
whose address is not in the reservation set performs the register write
of the nonzero code 1 without touching the bus; and after any sc.w the
address is no longer in the reservation set. -/
theorem c7_lr_sc_semantics (cpu : Cpu) (rd1 rd2 rs1 rs2 A : Nat)
    (hal : A % 4 = 0)
    (hlo : cpu.bus.ram.addrStart ≤ A)
    (hhi : A + 4 ≤ cpu.bus.ram.addrStart + cpu.bus.ram.size)
    (haddr : toU32 (cpu.regfile.read rs1) = A)
    (hrd1 : rd1 ≠ rs1) :
    (∃ cpu1, exec_r cpu rd1 rs1 rs2 .lrw = .ok cpu1
       ∧ ∃ cpu2, exec_r cpu1 rd2 rs1 rs2 .scw = .ok cpu2
         ∧ Bus.load 4 cpu2.bus A = .ok (toU32 (cpu1.regfile.read rs2))
         ∧ cpu2.regfile = cpu1.regfile.write rd2 0
         ∧ A ∉ cpu2.amoreserved)
    ∧ (A ∉ cpu.amoreserved →
       ∃ cpu3, exec_r cpu rd2 rs1 rs2 .scw = .ok cpu3
         ∧ cpu3.bus = cpu.bus
         ∧ cpu3.regfile = cpu.regfile.write rd2 1
         ∧ ((1 : Int) ≠ 0)
         ∧ A ∉ cpu3.amoreserved)
    ∧ (∀ cpu4, exec_r cpu rd2 rs1 rs2 .scw = .ok cpu4 → A ∉ cpu4.amoreserved) := by
  have hload : Bus.load 4 cpu.bus A = .ok (Ram.load 4 cpu.bus.ram A) := by
    unfold Bus.load
    rw [if_neg (by simp [hal]), if_pos ⟨hlo, by omega⟩]
  have hstore : ∀ d, Bus.store 4 cpu.bus A d
      = (.ok (), { cpu.bus with ram := Ram.store 4 cpu.bus.ram A d }) := by
    intro d
    unfold Bus.store
    rw [if_neg (by simp [hal]), if_pos ⟨hlo, by omega⟩]
  have hloadback : ∀ d, Bus.load 4 { cpu.bus with ram := Ram.store 4 cpu.bus.ram A d } A
      = .ok (d % U32MOD) := by
    intro d
    unfold Bus.load
    rw [if_neg (by simp [hal])]
    have hcond : (Ram.store 4 cpu.bus.ram A d).addrStart ≤ A
        ∧ A < (Ram.store 4 cpu.bus.ram A d).addrStart + (Ram.store 4 cpu.bus.ram A d).size := by
      unfold Ram.store
      constructor <;> simp <;> omega
    rw [if_pos hcond, ram_load_store]
  refine ⟨?_, ?_, ?_⟩
  · have haddr1 : toU32 ((cpu.regfile.write rd1 (toI32 (Ram.load 4 cpu.bus.ram A))).read rs1) = A := by
      rw [RegFile.read_write_ne _ _ _ _ hrd1, haddr]
    have hmem1 : A ∈ cpu.amoreserved.insert A := List.mem_insert_self A _
    have hE1 : exec_r cpu rd1 rs1 rs2 .lrw = .ok { cpu with
        regfile := cpu.regfile.write rd1 (toI32 (Ram.load 4 cpu.bus.ram A)),
        amoreserved := cpu.amoreserved.insert A } := by
      simp only [exec_r, haddr, hload]
    have hE2 : exec_r { cpu with
        regfile := cpu.regfile.write rd1 (toI32 (Ram.load 4 cpu.bus.ram A)),
        amoreserved := cpu.amoreserved.insert A } rd2 rs1 rs2 .scw = .ok { cpu with
        regfile := (cpu.regfile.write rd1 (toI32 (Ram.load 4 cpu.bus.ram A))).write rd2 0,
        bus := { cpu.bus with ram := Ram.store 4 cpu.bus.ram A (toU32 ((cpu.regfile.write rd1 (toI32 (Ram.load 4 cpu.bus.ram A))).read rs2)) },
        amoreserved := (cpu.amoreserved.insert A).filter (fun x => x != A) } := by
      simp only [exec_r, haddr1, hstore, if_pos hmem1]
    refine ⟨_, hE1, _, hE2, ?_, rfl, not_mem_filter_self A _⟩
    rw [hloadback]
    rw [Nat.mod_eq_of_lt (toU32_lt _)]
  · intro hnm
    have hE3 : exec_r cpu rd2 rs1 rs2 .scw = .ok { cpu with
        regfile := cpu.regfile.write rd2 1,
        amoreserved := cpu.amoreserved.filter (fun x => x != A) } := by
      simp only [exec_r, haddr]
      rw [if_neg hnm]
    exact ⟨_, hE3, rfl, rfl, by decide, not_mem_filter_self A _⟩
  · intro cpu4 h
    by_cases hm : A ∈ cpu.amoreserved
    · have hE : exec_r cpu rd2 rs1 rs2 .scw = .ok { cpu with
          regfile := cpu.regfile.write rd2 0,
          bus := { cpu.bus with ram := Ram.store 4 cpu.bus.ram A (toU32 (cpu.regfile.read rs2)) },
          amoreserved := cpu.amoreserved.filter (fun x => x != A) } := by
        simp only [exec_r, haddr, hstore, if_pos hm]
      rw [hE] at h
      injection h with h2
      rw [← h2]
      exact not_mem_filter_self A _
    · have hE : exec_r cpu rd2 rs1 rs2 .scw = .ok { cpu with
          regfile := cpu.regfile.write rd2 1,
          amoreserved := cpu.amoreserved.filter (fun x => x != A) } := by
        simp only [exec_r, haddr]
        rw [if_neg hm]
      rw [hE] at h
      injection h with h2
      rw [← h2]
      exact not_mem_filter_self A _

/-- A concrete state for the lr.w / sc.w witness: x1 holds the RAM base
address (as the i32 bit pattern) and x2 holds the value to store. -/
def cpuLr : Cpu :=
  { cpu0 with regfile := (RegFile.new.write 1 (-2147483648)).write 2 0x11223344 }

theorem c7_lr_sc_semantics_witness :
    (∃ cpu1, exec_r cpuLr 5 1 2 .lrw = .ok cpu1
       ∧ ∃ cpu2, exec_r cpu1 6 1 2 .scw = .ok cpu2
         ∧ Bus.load 4 cpu2.bus 0x80000000 = .ok (toU32 (cpu1.regfile.read 2))
         ∧ cpu2.regfile = cpu1.regfile.write 6 0
         ∧ 0x80000000 ∉ cpu2.amoreserved)
    ∧ (0x80000000 ∉ cpuLr.amoreserved →
       ∃ cpu3, exec_r cpuLr 6 1 2 .scw = .ok cpu3
         ∧ cpu3.bus = cpuLr.bus
         ∧ cpu3.regfile = cpuLr.regfile.write 6 1
         ∧ ((1 : Int) ≠ 0)
         ∧ 0x80000000 ∉ cpu3.amoreserved)
    ∧ (∀ cpu4, exec_r cpuLr 6 1 2 .scw = .ok cpu4 → 0x80000000 ∉ cpu4.amoreserved) :=
  c7_lr_sc_semantics cpuLr 5 6 1 2 0x80000000 (by decide) (by decide) (by decide)
    (by decide) (by decide)
